import Mathlib

set_option maxRecDepth 10000

/-!
Shallow embedding of the crop-frame geometry engine of `src/app/drag.directive.ts`
(picturecropper).  The file holds two engines, as the source does:

* the GIMP-style rectangle engine (`rectangle_apply_coord`, `rectangle_clamp_*`,
  `rectangle_apply_aspect`, `rectangle_apply_fixed_rule`, `rectangle_update_with_coord`,
  `rectangle_keep_inside_*`), and
* the frame engine (`HandleDragMove2`, `ClampToParent`, `KeepFrameInsideParent`,
  `MaintainAspect`).

Numbers are embedded as rationals; `Math.floor` is the integer floor.  Functions that the
source references but never defines (`rectangle_get_constraints`, the initialisation of
`aspect_numerator` / `aspect_denominator`, `rectangle_update_int_rect`) are modelled from the
spec, with a doc comment saying so.
-/

/-- The resizing-function enum of the rectangle engine (drag.directive.ts, `ResizingFunction`). -/
inductive ResizingFunction where
  | RESIZING_NONE
  | RESIZING_LEFT
  | RESIZING_RIGHT
  | RESIZING_UPPER_LEFT
  | RESIZING_UPPER_RIGHT
  | RESIZING_LOWER_LEFT
  | RESIZING_LOWER_RIGHT
  | RESIZING_TOP
  | RESIZING_BOTTOM
  | MOVING
  deriving DecidableEq

/-- `ClampedSide.CLAMPED_NONE` (bitmask value 0). -/
def CLAMPED_NONE : Nat := 0

/-- `ClampedSide.CLAMPED_LEFT` (1 <<< 0). -/
def CLAMPED_LEFT : Nat := 1

/-- `ClampedSide.CLAMPED_RIGHT` (1 <<< 1). -/
def CLAMPED_RIGHT : Nat := 2

/-- `ClampedSide.CLAMPED_TOP` (1 <<< 2). -/
def CLAMPED_TOP : Nat := 4

/-- `ClampedSide.CLAMPED_BOTTOM` (1 <<< 3). -/
def CLAMPED_BOTTOM : Nat := 8

/-- The side-to-resize enum of `rectangle_apply_aspect` (`SideToResize`). -/
inductive SideToResize where
  | SIDE_TO_RESIZE_NONE
  | SIDE_TO_RESIZE_LEFT
  | SIDE_TO_RESIZE_RIGHT
  | SIDE_TO_RESIZE_TOP
  | SIDE_TO_RESIZE_BOTTOM
  | SIDE_TO_RESIZE_LEFT_AND_RIGHT_SYMMETRICALLY
  | SIDE_TO_RESIZE_TOP_AND_BOTTOM_SYMMETRICALLY
  deriving DecidableEq

/-- The `Rectangle` record of the rectangle engine.  The four `_int` fields are the derived
integer view kept by the directive (`x1_int`, `y1_int`, `width_int`, `height_int`). -/
structure Rect where
  x1 : ℚ
  y1 : ℚ
  x2 : ℚ
  y2 : ℚ
  center_x_on_fixed_center : ℚ
  center_y_on_fixed_center : ℚ
  function : ResizingFunction
  fixed_center : Bool
  x1_int : ℤ
  y1_int : ℤ
  width_int : ℤ
  height_int : ℤ
  deriving DecidableEq

/-- Modelled from the spec: `rectangle_get_constraints` is called by the clamp and keep-inside
routines but is not defined anywhere in the source tree.  Per spec section 6 the container
element's bounding box defines the clamp bounds, so the constraints it would return are
modelled as this record of container bounds. -/
structure Bounds where
  min_x : ℚ
  min_y : ℚ
  max_x : ℚ
  max_y : ℚ
  deriving DecidableEq

/-- A `RectangleConstraint`: `none` is `CONSTRAIN_NONE`; `some b` is an active constraint whose
`rectangle_get_constraints` lookup (modelled from the spec, see `Bounds`) yields `b`. -/
def RectangleConstraint : Type := Option Bounds

/-- `Clamp(num, min, max)` from the directive: `Math.max(Math.min(num, max), min)`. -/
def Clamp (num lo hi : ℚ) : ℚ := max (min num hi) lo

/-- `rectangle_apply_coord` (drag.directive.ts lines 1672-1745): set the edges owned by the
active function to the new coordinate; for `MOVING` translate the whole rectangle preserving
width and height. -/
def rectangle_apply_coord (r : Rect) (coord_x coord_y : ℚ) : Rect :=
  if r.function = ResizingFunction.MOVING then
    let w := r.x2 - r.x1
    let h := r.y2 - r.y1
    { r with x1 := coord_x, y1 := coord_y, x2 := coord_x + w, y2 := coord_y + h }
  else
    let r1 :=
      match r.function with
      | ResizingFunction.RESIZING_UPPER_LEFT
      | ResizingFunction.RESIZING_LOWER_LEFT
      | ResizingFunction.RESIZING_LEFT =>
        let a := { r with x1 := coord_x }
        if a.fixed_center then { a with x2 := 2 * a.center_x_on_fixed_center - a.x1 } else a
      | ResizingFunction.RESIZING_UPPER_RIGHT
      | ResizingFunction.RESIZING_LOWER_RIGHT
      | ResizingFunction.RESIZING_RIGHT =>
        let a := { r with x2 := coord_x }
        if a.fixed_center then { a with x1 := 2 * a.center_x_on_fixed_center - a.x2 } else a
      | _ => r
    match r1.function with
    | ResizingFunction.RESIZING_UPPER_LEFT
    | ResizingFunction.RESIZING_UPPER_RIGHT
    | ResizingFunction.RESIZING_TOP =>
      let a := { r1 with y1 := coord_y }
      if a.fixed_center then { a with y2 := 2 * a.center_y_on_fixed_center - a.y1 } else a
    | ResizingFunction.RESIZING_LOWER_LEFT
    | ResizingFunction.RESIZING_LOWER_RIGHT
    | ResizingFunction.RESIZING_BOTTOM =>
      let a := { r1 with y2 := coord_y }
      if a.fixed_center then { a with y1 := 2 * a.center_y_on_fixed_center - a.y2 } else a
    | _ => r1

/-- `rectangle_clamp_width` (lines 1599-1647).  In the source the `CLAMPED_*` bits are OR'd
behind a truthiness guard `if (clamped_sides)`, i.e. only when the running mask is already
non-zero; this is kept verbatim as `≠ 0` tests.  With `CONSTRAIN_NONE` the source returns
`undefined`, which every consumer treats exactly like an untouched rectangle and mask. -/
def rectangle_clamp_width (r : Rect) (clamped_sides : Nat) (constraint : Option Bounds)
    (symmetrically : Bool) : Rect × Nat :=
  match constraint with
  | none => (r, clamped_sides)
  | some b =>
    let p1 : Rect × Nat :=
      if r.x1 < b.min_x then
        let dx := b.min_x - r.x1
        let a := { r with x1 := r.x1 + dx }
        let a := if symmetrically then { a with x2 := a.x2 - dx } else a
        let a := if a.x2 < b.min_x then { a with x2 := b.min_x } else a
        (a, if clamped_sides ≠ 0 then clamped_sides ||| CLAMPED_LEFT else clamped_sides)
      else (r, clamped_sides)
    if p1.1.x2 > b.max_x then
      let dx := b.max_x - p1.1.x2
      let a := { p1.1 with x2 := p1.1.x2 + dx }
      let a := if symmetrically then { a with x1 := a.x1 - dx } else a
      let a := if a.x1 > b.max_x then { a with x1 := b.max_x } else a
      (a, if p1.2 ≠ 0 then p1.2 ||| CLAMPED_RIGHT else p1.2)
    else p1

/-- `rectangle_clamp_height` (lines 1549-1597), mirror of `rectangle_clamp_width` on the y
axis. -/
def rectangle_clamp_height (r : Rect) (clamped_sides : Nat) (constraint : Option Bounds)
    (symmetrically : Bool) : Rect × Nat :=
  match constraint with
  | none => (r, clamped_sides)
  | some b =>
    let p1 : Rect × Nat :=
      if r.y1 < b.min_y then
        let dy := b.min_y - r.y1
        let a := { r with y1 := r.y1 + dy }
        let a := if symmetrically then { a with y2 := a.y2 - dy } else a
        let a := if a.y2 < b.min_y then { a with y2 := b.min_y } else a
        (a, if clamped_sides ≠ 0 then clamped_sides ||| CLAMPED_TOP else clamped_sides)
      else (r, clamped_sides)
    if p1.1.y2 > b.max_y then
      let dy := b.max_y - p1.1.y2
      let a := { p1.1 with y2 := p1.1.y2 + dy }
      let a := if symmetrically then { a with y1 := a.y1 - dy } else a
      let a := if a.y1 > b.max_y then { a with y1 := b.max_y } else a
      (a, if p1.2 ≠ 0 then p1.2 ||| CLAMPED_BOTTOM else p1.2)
    else p1

/-- `rectangle_clamp` (lines 1649-1670): width clamp then height clamp, threading the mask. -/
def rectangle_clamp (r : Rect) (clamped_sides : Nat) (constraint : Option Bounds)
    (symmetrically : Bool) : Rect × Nat :=
  let p := rectangle_clamp_width r clamped_sides constraint symmetrically
  rectangle_clamp_height p.1 p.2 constraint symmetrically

/-- `rectangle_keep_inside_horizontally` (lines 1504-1542): translation-only containment; an
oversized rectangle snaps to exactly the bounds span. -/
def rectangle_keep_inside_horizontally (r : Rect) (constraint : Option Bounds) : Rect :=
  match constraint with
  | none => r
  | some b =>
    if b.max_x - b.min_x < r.x2 - r.x1 then
      { r with x1 := b.min_x, x2 := b.max_x }
    else
      let r1 :=
        if r.x1 < b.min_x then
          let dx := b.min_x - r.x1
          { r with x1 := r.x1 + dx, x2 := r.x2 + dx }
        else r
      if r1.x2 > b.max_x then
        let dx := b.max_x - r1.x2
        { r1 with x1 := r1.x1 + dx, x2 := r1.x2 + dx }
      else r1

/-- `rectangle_keep_inside_vertically` (lines 1464-1502), mirror on the y axis. -/
def rectangle_keep_inside_vertically (r : Rect) (constraint : Option Bounds) : Rect :=
  match constraint with
  | none => r
  | some b =>
    if b.max_y - b.min_y < r.y2 - r.y1 then
      { r with y1 := b.min_y, y2 := b.max_y }
    else
      let r1 :=
        if r.y1 < b.min_y then
          let dy := b.min_y - r.y1
          { r with y1 := r.y1 + dy, y2 := r.y2 + dy }
        else r
      if r1.y2 > b.max_y then
        let dy := b.max_y - r1.y2
        { r1 with y1 := r1.y1 + dy, y2 := r1.y2 + dy }
      else r1

/-- `rectangle_keep_inside` (lines 1544-1547). -/
def rectangle_keep_inside (r : Rect) (constraint : Option Bounds) : Rect :=
  rectangle_keep_inside_vertically (rectangle_keep_inside_horizontally r constraint) constraint

/-- `rectangle_apply_aspect` (lines 1261-1462).  The tolerance test is the source's signed
`current_aspect - aspect < 1e-4`, not an absolute-value test. -/
def rectangle_apply_aspect (r : Rect) (aspect : ℚ) (clamped_sides : Nat) : Rect :=
  let current_w := r.x2 - r.x1
  let current_h := r.y2 - r.y1
  let current_aspect := current_w / current_h
  if current_aspect - aspect < 1 / 10000 then r
  else
    let side_to_resize : SideToResize :=
      if current_aspect > aspect then
        match r.function with
        | ResizingFunction.RESIZING_UPPER_LEFT =>
          if clamped_sides &&& CLAMPED_TOP = 0 then SideToResize.SIDE_TO_RESIZE_TOP
          else SideToResize.SIDE_TO_RESIZE_LEFT
        | ResizingFunction.RESIZING_UPPER_RIGHT =>
          if clamped_sides &&& CLAMPED_TOP = 0 then SideToResize.SIDE_TO_RESIZE_TOP
          else SideToResize.SIDE_TO_RESIZE_RIGHT
        | ResizingFunction.RESIZING_LOWER_LEFT =>
          if clamped_sides &&& CLAMPED_BOTTOM = 0 then SideToResize.SIDE_TO_RESIZE_BOTTOM
          else SideToResize.SIDE_TO_RESIZE_LEFT
        | ResizingFunction.RESIZING_LOWER_RIGHT =>
          if clamped_sides &&& CLAMPED_BOTTOM = 0 then SideToResize.SIDE_TO_RESIZE_BOTTOM
          else SideToResize.SIDE_TO_RESIZE_RIGHT
        | ResizingFunction.RESIZING_LEFT =>
          if clamped_sides &&& CLAMPED_TOP = 0 ∧ clamped_sides &&& CLAMPED_BOTTOM = 0 then
            SideToResize.SIDE_TO_RESIZE_TOP_AND_BOTTOM_SYMMETRICALLY
          else SideToResize.SIDE_TO_RESIZE_LEFT
        | ResizingFunction.RESIZING_RIGHT =>
          if clamped_sides &&& CLAMPED_TOP = 0 ∧ clamped_sides &&& CLAMPED_BOTTOM = 0 then
            SideToResize.SIDE_TO_RESIZE_TOP_AND_BOTTOM_SYMMETRICALLY
          else SideToResize.SIDE_TO_RESIZE_RIGHT
        | ResizingFunction.RESIZING_BOTTOM
        | ResizingFunction.RESIZING_TOP =>
          SideToResize.SIDE_TO_RESIZE_LEFT_AND_RIGHT_SYMMETRICALLY
        | _ =>
          if clamped_sides &&& CLAMPED_BOTTOM = 0 then SideToResize.SIDE_TO_RESIZE_BOTTOM
          else if clamped_sides &&& CLAMPED_RIGHT = 0 then SideToResize.SIDE_TO_RESIZE_RIGHT
          else if clamped_sides &&& CLAMPED_TOP = 0 then SideToResize.SIDE_TO_RESIZE_TOP
          else if clamped_sides &&& CLAMPED_LEFT = 0 then SideToResize.SIDE_TO_RESIZE_LEFT
          else SideToResize.SIDE_TO_RESIZE_NONE
      else
        match r.function with
        | ResizingFunction.RESIZING_UPPER_LEFT =>
          if clamped_sides &&& CLAMPED_LEFT = 0 then SideToResize.SIDE_TO_RESIZE_LEFT
          else SideToResize.SIDE_TO_RESIZE_TOP
        | ResizingFunction.RESIZING_UPPER_RIGHT =>
          if clamped_sides &&& CLAMPED_RIGHT = 0 then SideToResize.SIDE_TO_RESIZE_RIGHT
          else SideToResize.SIDE_TO_RESIZE_TOP
        | ResizingFunction.RESIZING_LOWER_LEFT =>
          if clamped_sides &&& CLAMPED_LEFT = 0 then SideToResize.SIDE_TO_RESIZE_LEFT
          else SideToResize.SIDE_TO_RESIZE_BOTTOM
        | ResizingFunction.RESIZING_LOWER_RIGHT =>
          if clamped_sides &&& CLAMPED_RIGHT = 0 then SideToResize.SIDE_TO_RESIZE_RIGHT
          else SideToResize.SIDE_TO_RESIZE_BOTTOM
        | ResizingFunction.RESIZING_TOP =>
          if clamped_sides &&& CLAMPED_LEFT = 0 ∧ clamped_sides &&& CLAMPED_RIGHT = 0 then
            SideToResize.SIDE_TO_RESIZE_LEFT_AND_RIGHT_SYMMETRICALLY
          else SideToResize.SIDE_TO_RESIZE_TOP
        | ResizingFunction.RESIZING_BOTTOM =>
          if clamped_sides &&& CLAMPED_LEFT = 0 ∧ clamped_sides &&& CLAMPED_RIGHT = 0 then
            SideToResize.SIDE_TO_RESIZE_LEFT_AND_RIGHT_SYMMETRICALLY
          else SideToResize.SIDE_TO_RESIZE_BOTTOM
        | ResizingFunction.RESIZING_LEFT
        | ResizingFunction.RESIZING_RIGHT =>
          SideToResize.SIDE_TO_RESIZE_TOP_AND_BOTTOM_SYMMETRICALLY
        | _ =>
          if clamped_sides &&& CLAMPED_BOTTOM = 0 then SideToResize.SIDE_TO_RESIZE_BOTTOM
          else if clamped_sides &&& CLAMPED_RIGHT = 0 then SideToResize.SIDE_TO_RESIZE_RIGHT
          else if clamped_sides &&& CLAMPED_TOP = 0 then SideToResize.SIDE_TO_RESIZE_TOP
          else if clamped_sides &&& CLAMPED_LEFT = 0 then SideToResize.SIDE_TO_RESIZE_LEFT
          else SideToResize.SIDE_TO_RESIZE_NONE
    match side_to_resize with
    | SideToResize.SIDE_TO_RESIZE_NONE => r
    | SideToResize.SIDE_TO_RESIZE_LEFT => { r with x1 := r.x2 - aspect * current_h }
    | SideToResize.SIDE_TO_RESIZE_RIGHT => { r with x2 := r.x1 + aspect * current_h }
    | SideToResize.SIDE_TO_RESIZE_TOP => { r with y1 := r.y2 - current_w / aspect }
    | SideToResize.SIDE_TO_RESIZE_BOTTOM => { r with y2 := r.y1 + current_w / aspect }
    | SideToResize.SIDE_TO_RESIZE_TOP_AND_BOTTOM_SYMMETRICALLY =>
      let correct_h := current_w / aspect
      let ny1 := r.center_y_on_fixed_center - correct_h / 2
      { r with y1 := ny1, y2 := ny1 + correct_h }
    | SideToResize.SIDE_TO_RESIZE_LEFT_AND_RIGHT_SYMMETRICALLY =>
      let correct_w := current_h * aspect
      let nx1 := r.center_x_on_fixed_center - correct_w / 2
      { r with x1 := nx1, x2 := nx1 + correct_w }

/-- `rectangle_apply_fixed_rule` (lines 1215-1242).  `aspect_numerator`,
`aspect_denominator`, and the parent size are directive state; the aspect fields are declared
but never initialised in the source, so (modelled from the spec) they hold the configured
aspect-ratio components and are taken here as parameters.  The `symmetrically` argument of
`rectangle_clamp` is the source's `this.fixed_center`, a field the directive class never
declares, hence the JavaScript value `undefined`, i.e. `false`. -/
def rectangle_apply_fixed_rule (r : Rect) (dragType : String) (constraint : Option Bounds)
    (aspect_numerator aspect_denominator parentWidth parentHeight : ℚ) : Rect :=
  let aspect := Clamp (aspect_numerator / aspect_denominator) (1 / parentHeight) parentWidth
  if dragType ≠ "move" then
    let r1 := rectangle_apply_aspect r aspect CLAMPED_NONE
    let p := rectangle_clamp r1 CLAMPED_NONE constraint false
    rectangle_apply_aspect p.1 aspect p.2
  else
    let r1 := rectangle_apply_aspect r aspect CLAMPED_NONE
    rectangle_keep_inside r1 constraint

/-- `rectangle_handle_general_clamping` (lines 1203-1213).  The mask argument of
`rectangle_clamp` is the source's literal `null` (falsy, so every `if (clamped_sides)` guard
fails; behaviourally the empty mask), and `symmetrically` is again the undefined
`this.fixed_center`, i.e. `false`.  `dragType` is an `Option` because the one call site
(line 1252) omits the argument, passing `undefined`. -/
def rectangle_handle_general_clamping (r : Rect) (dragType : Option String)
    (constraint : Option Bounds) : Rect :=
  match constraint with
  | none => r
  | some _ =>
    if dragType ≠ some "move" then (rectangle_clamp r CLAMPED_NONE constraint false).1
    else rectangle_keep_inside r constraint

/-- Modelled from the spec: `rectangle_update_int_rect` is called by the update pipeline but
not defined in the source tree; per spec section 3 it recomputes the rounded integer snapshot
`x1_int, y1_int, width_int, height_int` without touching the working coordinates. -/
def rectangle_update_int_rect (r : Rect) : Rect :=
  { r with
    x1_int := round r.x1
    y1_int := round r.y1
    width_int := round (r.x2 - r.x1)
    height_int := round (r.y2 - r.y1) }

/-- `rectangle_update_with_coord` (lines 1244-1259), the per-pointer-move pipeline of the
rectangle engine.  Note the source calls `rectangle_handle_general_clamping(rectangle)`
without its `dragType` parameter (line 1252): the undefined value never equals `'move'`, so
the clamp branch runs there even for moves; this embedding passes `none` for that argument. -/
def rectangle_update_with_coord (r : Rect) (dragType : String) (new_x new_y : ℚ)
    (constraint : Option Bounds)
    (aspect_numerator aspect_denominator parentWidth parentHeight : ℚ) : Rect :=
  let r1 := rectangle_apply_coord r new_x new_y
  let r2 := rectangle_handle_general_clamping r1 none constraint
  let r3 :=
    if dragType ≠ "move" then
      rectangle_apply_fixed_rule r2 dragType constraint
        aspect_numerator aspect_denominator parentWidth parentHeight
    else r2
  rectangle_update_int_rect r3

/-- Rectangle as set up at gesture start: `rectangle_recalculate_center_xy` puts the fixed
centers at the midpoints, `fixed_center` is off, and the integer view starts at zero before
the first `rectangle_update_int_rect`. -/
def mkRect (x1 y1 x2 y2 : ℚ) (f : ResizingFunction) : Rect :=
  { x1 := x1, y1 := y1, x2 := x2, y2 := y2
    center_x_on_fixed_center := (x1 + x2) / 2
    center_y_on_fixed_center := (y1 + y2) / 2
    function := f, fixed_center := false
    x1_int := 0, y1_int := 0, width_int := 0, height_int := 0 }

/-- Container bounds [0,100] on both axes. -/
def bounds100 : Bounds := { min_x := 0, min_y := 0, max_x := 100, max_y := 100 }

/-- The resize-direction enum of the frame engine (`ResizeDirection`). -/
inductive ResizeDirection where
  | RESIZE_NONE
  | RESIZE_NORTHWEST
  | RESIZE_NORTH
  | RESIZE_NORTHEAST
  | RESIZE_EAST
  | RESIZE_SOUTHEAST
  | RESIZE_SOUTH
  | RESIZE_SOUTHWEST
  | RESIZE_WEST
  deriving DecidableEq

/-- `ClampDirection.CLAMP_TOP` of the frame engine. -/
def CLAMP_TOP : Nat := 1

/-- `ClampDirection.CLAMP_RIGHT` of the frame engine. -/
def CLAMP_RIGHT : Nat := 2

/-- `ClampDirection.CLAMP_BOTTOM` of the frame engine. -/
def CLAMP_BOTTOM : Nat := 4

/-- `ClampDirection.CLAMP_LEFT` of the frame engine. -/
def CLAMP_LEFT : Nat := 8

/-- The `SideAdjust` enum of the frame engine. -/
inductive SideAdjust where
  | SIDE_NONE
  | SIDE_TOP
  | SIDE_RIGHT
  | SIDE_BOTTOM
  | SIDE_LEFT
  | SIDE_TOP_BOTTOM_SAME
  | SIDE_LEFT_RIGHT_SAME
  deriving DecidableEq

/-- The `FramePosition` record of the frame engine. -/
structure FramePosition where
  Top : ℚ
  Left : ℚ
  Right : ℚ
  Bottom : ℚ
  CenterX : ℚ
  CenterY : ℚ
  Width : ℚ
  Height : ℚ
  deriving DecidableEq

/-- `Math.floor` on the rational embedding of a JavaScript number. -/
def floorQ (x : ℚ) : ℚ := (⌊x⌋ : ℤ)

/-- `ClampToParent` (drag.directive.ts lines 2191-2248): pin each violating edge to the
parent, OR the corresponding `CLAMP_*` bit into the running mask unconditionally, and
recompute width, height and the floored centers. -/
def ClampToParent (frame parent : FramePosition) (sidesToClamp : Nat) : FramePosition × Nat :=
  let p1 : FramePosition × Nat :=
    if frame.Left < 0 then
      let dx := -frame.Left
      let a := { frame with Left := frame.Left + dx }
      let a := if a.Right < 0 then { a with Right := 0 } else a
      (a, sidesToClamp ||| CLAMP_LEFT)
    else (frame, sidesToClamp)
  let p2 : FramePosition × Nat :=
    if p1.1.Right > parent.Width - 1 then
      let dx := parent.Width - p1.1.Right
      let a := { p1.1 with Right := p1.1.Right + dx }
      let a := if a.Left > parent.Width - 1 then { a with Left := parent.Width - 1 } else a
      (a, p1.2 ||| CLAMP_RIGHT)
    else p1
  let p3 : FramePosition × Nat :=
    if p2.1.Top < 0 then
      let dy := -p2.1.Top
      let a := { p2.1 with Top := p2.1.Top + dy }
      let a := if a.Bottom < 0 then { a with Bottom := 0 } else a
      (a, p2.2 ||| CLAMP_TOP)
    else p2
  let p4 : FramePosition × Nat :=
    if p3.1.Bottom > parent.Height - 1 then
      let dy := parent.Height - p3.1.Bottom
      let a := { p3.1 with Bottom := p3.1.Bottom + dy }
      let a := if a.Top > parent.Height - 1 then { a with Top := parent.Height - 1 } else a
      (a, p3.2 ||| CLAMP_BOTTOM)
    else p3
  let f := p4.1
  ({ f with
      Width := f.Right - f.Left
      Height := f.Bottom - f.Top
      CenterX := floorQ ((f.Left + f.Right) / 2)
      CenterY := floorQ ((f.Top + f.Bottom) / 2) }, p4.2)

/-- `KeepFrameInsideParent` (lines 2658-2697): translation-only containment for moves; a frame
wider than the parent snaps to `[0, parent.Width - 1]` (the vertical test uses the `Height`
field, as in the source). -/
def KeepFrameInsideParent (frame parent : FramePosition) : FramePosition :=
  let f1 :=
    if frame.Right - frame.Left > parent.Width then
      let a := { frame with Left := 0, Right := parent.Width - 1 }
      { a with Width := a.Right - a.Left + 1 }
    else
      let a :=
        if frame.Left < 0 then
          let dx := -frame.Left
          { frame with Left := frame.Left + dx, Right := frame.Right + dx }
        else frame
      if a.Right > parent.Width - 1 then
        let dx := parent.Width - a.Right
        { a with Left := a.Left + dx, Right := a.Right + dx }
      else a
  let f2 :=
    if f1.Height > parent.Height then
      let a := { f1 with Top := 0, Bottom := parent.Height - 1 }
      { a with Height := a.Bottom - a.Top + 1 }
    else
      let a :=
        if f1.Top < 0 then
          let dy := -f1.Top
          { f1 with Top := f1.Top + dy, Bottom := f1.Bottom + dy }
        else f1
      if a.Bottom > parent.Height - 1 then
        let dy := parent.Height - a.Bottom
        { a with Top := a.Top + dy, Bottom := a.Bottom + dy }
      else a
  { f2 with
      CenterX := floorQ ((f2.Left + f2.Right) / 2)
      CenterY := floorQ ((f2.Top + f2.Bottom) / 2) }

/-- The frame engine's aspect reconciler, `MaintainAspectRatio` in the source (lines
2703-2894; renamed here only because of naming restrictions of this development).  Its
tolerance test is `Math.abs(currentAspect - desiredAspect) <= 1e-4`. -/
def MaintainAspect (frame parent : FramePosition) (resizeDirection : ResizeDirection)
    (usedClamping : Nat) (aspectX aspectY : ℚ) : FramePosition :=
  let currentAspect := frame.Width / frame.Height
  let desiredAspect := aspectX / aspectY
  if |currentAspect - desiredAspect| ≤ 1 / 10000 then frame
  else
    let sideToMove : SideAdjust :=
      if currentAspect > desiredAspect then
        match resizeDirection with
        | ResizeDirection.RESIZE_NORTHWEST =>
          if usedClamping &&& CLAMP_TOP = 0 then SideAdjust.SIDE_TOP else SideAdjust.SIDE_LEFT
        | ResizeDirection.RESIZE_NORTH
        | ResizeDirection.RESIZE_SOUTH => SideAdjust.SIDE_LEFT_RIGHT_SAME
        | ResizeDirection.RESIZE_NORTHEAST =>
          if usedClamping &&& CLAMP_TOP = 0 then SideAdjust.SIDE_TOP else SideAdjust.SIDE_RIGHT
        | ResizeDirection.RESIZE_EAST =>
          if usedClamping &&& CLAMP_TOP = 0 ∧ usedClamping &&& CLAMP_BOTTOM = 0 then
            SideAdjust.SIDE_TOP_BOTTOM_SAME
          else SideAdjust.SIDE_RIGHT
        | ResizeDirection.RESIZE_SOUTHEAST =>
          if usedClamping &&& CLAMP_BOTTOM = 0 then SideAdjust.SIDE_BOTTOM
          else SideAdjust.SIDE_RIGHT
        | ResizeDirection.RESIZE_SOUTHWEST =>
          if usedClamping &&& CLAMP_BOTTOM = 0 then SideAdjust.SIDE_BOTTOM
          else SideAdjust.SIDE_LEFT
        | ResizeDirection.RESIZE_WEST =>
          if usedClamping &&& CLAMP_TOP = 0 ∧ usedClamping &&& CLAMP_BOTTOM = 0 then
            SideAdjust.SIDE_TOP_BOTTOM_SAME
          else SideAdjust.SIDE_LEFT
        | ResizeDirection.RESIZE_NONE => SideAdjust.SIDE_NONE
      else
        match resizeDirection with
        | ResizeDirection.RESIZE_NORTHWEST =>
          if usedClamping &&& CLAMP_LEFT = 0 then SideAdjust.SIDE_LEFT else SideAdjust.SIDE_TOP
        | ResizeDirection.RESIZE_NORTH =>
          if usedClamping &&& CLAMP_LEFT = 0 ∧ usedClamping &&& CLAMP_RIGHT = 0 then
            SideAdjust.SIDE_LEFT_RIGHT_SAME
          else SideAdjust.SIDE_TOP
        | ResizeDirection.RESIZE_NORTHEAST =>
          if usedClamping &&& CLAMP_RIGHT = 0 then SideAdjust.SIDE_RIGHT
          else SideAdjust.SIDE_TOP
        | ResizeDirection.RESIZE_EAST
        | ResizeDirection.RESIZE_WEST => SideAdjust.SIDE_TOP_BOTTOM_SAME
        | ResizeDirection.RESIZE_SOUTHEAST =>
          if usedClamping &&& CLAMP_RIGHT = 0 then SideAdjust.SIDE_RIGHT
          else SideAdjust.SIDE_BOTTOM
        | ResizeDirection.RESIZE_SOUTH =>
          if usedClamping &&& CLAMP_LEFT = 0 ∧ usedClamping &&& CLAMP_RIGHT = 0 then
            SideAdjust.SIDE_LEFT_RIGHT_SAME
          else SideAdjust.SIDE_BOTTOM
        | ResizeDirection.RESIZE_SOUTHWEST =>
          if usedClamping &&& CLAMP_LEFT = 0 then SideAdjust.SIDE_LEFT
          else SideAdjust.SIDE_BOTTOM
        | ResizeDirection.RESIZE_NONE => SideAdjust.SIDE_NONE
    let f :=
      match sideToMove with
      | SideAdjust.SIDE_NONE => frame
      | SideAdjust.SIDE_TOP => { frame with Top := frame.Bottom - frame.Width / desiredAspect }
      | SideAdjust.SIDE_RIGHT =>
        { frame with Right := frame.Left + frame.Height * desiredAspect }
      | SideAdjust.SIDE_BOTTOM =>
        { frame with Bottom := frame.Top + frame.Width / desiredAspect }
      | SideAdjust.SIDE_LEFT => { frame with Left := frame.Right - frame.Height * desiredAspect }
      | SideAdjust.SIDE_TOP_BOTTOM_SAME =>
        let newHeight := frame.Width / desiredAspect
        if usedClamping &&& CLAMP_TOP ≠ 0 ∧ usedClamping &&& CLAMP_BOTTOM = 0 then
          { frame with Top := 0, Bottom := newHeight }
        else if usedClamping &&& CLAMP_BOTTOM ≠ 0 ∧ usedClamping &&& CLAMP_TOP = 0 then
          { frame with Bottom := parent.Height, Top := parent.Height - newHeight }
        else
          let t := frame.CenterY - newHeight / 2
          { frame with Top := t, Bottom := t + newHeight }
      | SideAdjust.SIDE_LEFT_RIGHT_SAME =>
        let newWidth := frame.Height * desiredAspect
        let l := frame.CenterX - newWidth / 2
        { frame with Left := l, Right := l + newWidth }
    { f with
        Height := f.Bottom - f.Top
        Width := f.Right - f.Left
        CenterX := floorQ ((f.Left + f.Right) / 2)
        CenterY := floorQ ((f.Top + f.Bottom) / 2) }

/-- `HandleDragMove2` (lines 2379-2652): the frame engine's per-pointer-move computation,
as a function of the captured gesture state (`frameStart`, `parentStart`, min sizes, aspect
configuration) and the pointer offset `(dx, dy)` relative to `cursorStart`.  It returns the
`result` frame that the source writes to the element style. -/
def HandleDragMove2 (frameStart parentStart : FramePosition) (dx dy : ℚ) (dragType : String)
    (aspectLocked : Bool) (aspectX aspectY minWidth minHeight : ℚ) : FramePosition :=
  let result : FramePosition :=
    { Top := frameStart.Top
      Left := frameStart.Left
      CenterX := (2 * frameStart.Left + frameStart.Width) / 2
      CenterY := (2 * frameStart.Top + frameStart.Height) / 2
      Bottom := frameStart.Top + frameStart.Height
      Right := frameStart.Left + frameStart.Width
      Height := frameStart.Height
      Width := frameStart.Width }
  let result :=
    if dragType = "move" then
      let r := { result with CenterX := result.CenterX + dx, CenterY := result.CenterY + dy }
      let r := { r with Top := floorQ (r.CenterY - r.Height / 2) }
      let r := { r with Bottom := r.Top + r.Height }
      let r := { r with Left := floorQ (r.CenterX - r.Width / 2) }
      let r := { r with Right := r.Left + r.Width }
      KeepFrameInsideParent r parentStart
    else
      let resizeDirection : ResizeDirection :=
        if dragType = "resize-ne" then ResizeDirection.RESIZE_NORTHEAST
        else if dragType = "resize-se" then ResizeDirection.RESIZE_SOUTHEAST
        else if dragType = "resize-sw" then ResizeDirection.RESIZE_SOUTHWEST
        else if dragType = "resize-nw" then ResizeDirection.RESIZE_NORTHWEST
        else if dragType = "resize-e" then ResizeDirection.RESIZE_EAST
        else if dragType = "resize-w" then ResizeDirection.RESIZE_WEST
        else if dragType = "resize-n" then ResizeDirection.RESIZE_NORTH
        else if dragType = "resize-s" then ResizeDirection.RESIZE_SOUTH
        else ResizeDirection.RESIZE_NONE
      let r :=
        if dx = 0 ∧ dy = 0 then result
        else if dragType = "resize-ne" then
          { result with Top := result.Top + dy, Right := result.Right + dx }
        else if dragType = "resize-se" then
          { result with Bottom := result.Bottom + dy, Right := result.Right + dx }
        else if dragType = "resize-sw" then
          { result with Left := result.Left + dx, Bottom := result.Bottom + dy }
        else if dragType = "resize-nw" then
          { result with Left := result.Left + dx, Top := result.Top + dy }
        else if dragType = "resize-e" then { result with Right := result.Right + dx }
        else if dragType = "resize-w" then { result with Left := result.Left + dx }
        else if dragType = "resize-n" then { result with Top := result.Top + dy }
        else if dragType = "resize-s" then { result with Bottom := result.Bottom + dy }
        else result
      let r := { r with Width := r.Right - r.Left, Height := r.Bottom - r.Top }
      if r.Width < minWidth then
        let r := { r with Width := minWidth }
        let r :=
          if resizeDirection ≠ ResizeDirection.RESIZE_NORTHEAST ∧
              resizeDirection ≠ ResizeDirection.RESIZE_SOUTHEAST ∧
              resizeDirection ≠ ResizeDirection.RESIZE_EAST then
            { r with Left := r.Right - minWidth }
          else r
        if aspectLocked then
          let r := { r with Height := r.Width * aspectY / aspectX }
          if resizeDirection = ResizeDirection.RESIZE_EAST ∨
              resizeDirection = ResizeDirection.RESIZE_WEST then
            { r with Top := floorQ (r.CenterY - r.Height / 2) }
          else if resizeDirection = ResizeDirection.RESIZE_NORTHEAST ∨
              resizeDirection = ResizeDirection.RESIZE_NORTHWEST then
            { r with Top := r.Bottom - r.Height }
          else { r with Bottom := r.Top + r.Height }
        else r
      else if r.Height < minHeight then
        let r := { r with Height := minHeight }
        let r :=
          if resizeDirection ≠ ResizeDirection.RESIZE_NORTHEAST ∧
              resizeDirection ≠ ResizeDirection.RESIZE_SOUTHEAST ∧
              resizeDirection ≠ ResizeDirection.RESIZE_SOUTH then
            { r with Top := r.Bottom - minHeight }
          else r
        let r :=
          if resizeDirection = ResizeDirection.RESIZE_NORTHEAST then
            { r with Top := r.Bottom - r.Height }
          else { r with Bottom := r.Top + r.Height }
        if aspectLocked then
          let r := { r with Width := r.Height * aspectX / aspectY }
          if resizeDirection = ResizeDirection.RESIZE_NORTH ∨
              resizeDirection = ResizeDirection.RESIZE_SOUTH then
            { r with Left := floorQ (r.CenterX - r.Width / 2) }
          else if resizeDirection = ResizeDirection.RESIZE_SOUTHWEST then
            { r with Left := r.Right - r.Width }
          else { r with Right := r.Left + r.Width }
        else r
      else
        if aspectLocked then
          let r1 := MaintainAspect r parentStart resizeDirection 0 aspectX aspectY
          let p := ClampToParent r1 parentStart 0
          MaintainAspect p.1 parentStart resizeDirection p.2 aspectX aspectY
        else r
  { result with
      CenterX := (result.Left + result.Right) / 2
      CenterY := (result.Top + result.Bottom) / 2 }

/-- Value of a digit run, as `Number.parseFloat` reads an integer part. -/
def digitsToNat (ds : List Char) : ℕ :=
  ds.foldl (fun n c => 10 * n + (c.toNat - '0'.toNat)) 0

/-- Value of a digit run read as a fractional part (the digits after the decimal point). -/
def fracToRat (ds : List Char) : ℚ :=
  ds.foldr (fun c q => (((c.toNat - '0'.toNat : ℕ) : ℚ) + q) / 10) 0

/-- One capture group of the directive's aspect regex, the pattern
`\d+(?:\.\d*)?` followed by `Number.parseFloat` of the captured text: at least one digit,
optionally a point and more digits; returns the parsed value and the unconsumed suffix. -/
def parseDecimal (l : List Char) : Option (ℚ × List Char) :=
  let ds := l.takeWhile Char.isDigit
  let rest := l.dropWhile Char.isDigit
  if ds.isEmpty then none
  else
    match rest with
    | '.' :: r2 =>
      some ((digitsToNat ds : ℚ) + fracToRat (r2.takeWhile Char.isDigit),
        r2.dropWhile Char.isDigit)
    | _ => some ((digitsToNat ds : ℚ), rest)

/-- The directive's anchored aspect regex match
(first group, a colon, second group, end of string) with both groups parsed. -/
def aspectStringParse (l : List Char) : Option (ℚ × ℚ) :=
  match parseDecimal l with
  | some (a, ':' :: r) =>
    match parseDecimal r with
    | some (b, []) => some (a, b)
    | _ => none
  | _ => none

/-- The aspect-configuration logic of the `DragDirective` constructor (lines 137-157):
returns `(aspectLocked, aspectX, aspectY)`.  `!!appDragAspectRatio` is false exactly for the
empty string; a failed regex match, or a component with absolute value at most `1e-4`, turns
locking off; and when locking is off both components are reset to zero. -/
def dragDirectiveAspectInit (s : String) : Bool × ℚ × ℚ :=
  if s = "" then (false, 0, 0)
  else
    match aspectStringParse s.data with
    | none => (false, 0, 0)
    | some (ax, ay) =>
      if |ax| ≤ 1 / 10000 ∨ |ay| ≤ 1 / 10000 then (false, 0, 0) else (true, ax, ay)

/-- Rectangle-engine input of the containment counterexample: 60 wide becomes 100 wide and
too wide for the 1:1 aspect after the coordinate is applied. -/
def rectC1 : Rect := mkRect 0 50 60 100 ResizingFunction.RESIZING_LOWER_RIGHT

/-- Rectangle-engine input whose aspect stays far from the 1:1 target. -/
def rectC2 : Rect := mkRect 0 0 60 100 ResizingFunction.RESIZING_RIGHT

/-- Rectangle-engine input for dragging the right edge leftward past the left edge. -/
def rectC3 : Rect := mkRect 50 0 100 50 ResizingFunction.RESIZING_RIGHT

/-- A rectangle whose aspect (2/5) is far below a 1:1 target. -/
def rectC4 : Rect := mkRect 0 0 40 100 ResizingFunction.RESIZING_RIGHT

/-- Rectangle-engine input for a move that crosses the left bound. -/
def rectC5 : Rect := mkRect 10 10 60 60 ResizingFunction.MOVING

/-- A rectangle wider than the [0,100] bounds, for the keep-inside snap. -/
def rectC6 : Rect := mkRect (-20) 10 200 40 ResizingFunction.MOVING

/-- A frame wider than its parent but within it vertically, for the keep-inside snap. -/
def frameC6 : FramePosition :=
  { Top := 5, Left := -10, Right := 250, Bottom := 50, CenterX := 120, CenterY := 27,
    Width := 260, Height := 45 }

/-- 100 by 100 parent frame. -/
def parentC6 : FramePosition :=
  { Top := 0, Left := 0, Right := 100, Bottom := 100, CenterX := 50, CenterY := 50,
    Width := 100, Height := 100 }

/-- Rectangle-engine input for the idempotence counterexample. -/
def rectC8 : Rect := mkRect 20 20 70 70 ResizingFunction.MOVING

/-- First application of the pointer coordinate (-15, 30) while moving. -/
def rectC8_once : Rect :=
  rectangle_update_with_coord rectC8 "move" (-15) 30 (some bounds100) 1 1 100 100

/-- Second application of the identical pointer coordinate. -/
def rectC8_twice : Rect :=
  rectangle_update_with_coord rectC8_once "move" (-15) 30 (some bounds100) 1 1 100 100

/-- Scenario A frame start: rectangle x1 10, y1 10, x2 110, y2 60 (100 by 50). -/
def frameC9 : FramePosition :=
  { Top := 10, Left := 10, Right := 110, Bottom := 60, CenterX := 119 / 2, CenterY := 69 / 2,
    Width := 100, Height := 50 }

/-- Scenario A container, 200 by 100. -/
def parentC9 : FramePosition :=
  { Top := 0, Left := 0, Right := 200, Bottom := 100, CenterX := 100, CenterY := 50,
    Width := 200, Height := 100 }

/-- A rectangle sticking out of the bounds on both horizontal sides, so that the clamp
really pins edges. -/
def rectC10 : Rect := mkRect (-5) 10 120 50 ResizingFunction.RESIZING_RIGHT

/-- C1: the containment invariant fails after the full non-move pipeline.  With the container
constraint [0,100]x[0,100] active and a 1:1 aspect, dragging the lower-right corner of
`rectC1` to (100, 100) ends with `y2 = 150`, outside `bounds100.max_y = 100`: the clamp pins
the bottom edge but records no `CLAMPED_BOTTOM` bit (the mask truthiness bug), so the second
aspect pass re-extends the bottom edge past the bound. -/
theorem containment_fails_after_second_aspect_pass :
    (rectangle_update_with_coord rectC1 "resize-se" 100 100 (some bounds100) 1 1 100 100).y2
        = 150 ∧
    bounds100.max_y = 100 := by
  constructor
  · norm_num +decide [rectangle_update_with_coord, rectangle_apply_coord,
      rectangle_handle_general_clamping, rectangle_apply_fixed_rule, rectangle_apply_aspect,
      rectangle_clamp, rectangle_clamp_width, rectangle_clamp_height, rectangle_keep_inside,
      rectangle_keep_inside_horizontally, rectangle_keep_inside_vertically,
      rectangle_update_int_rect, Clamp, mkRect, rectC1, bounds100,
      CLAMPED_NONE, CLAMPED_LEFT, CLAMPED_RIGHT, CLAMPED_TOP, CLAMPED_BOTTOM]
  · rfl

/-- C2: the aspect-lock invariant fails after the full pipeline.  With aspect 1:1 active and
no minimum-size floor in this engine, dragging the right edge of `rectC2` to x = 40 ends with
width 40 and height 100, a ratio of 2/5, which is not within 1e-3 of the target 1: the signed
tolerance test makes every too-tall pass a no-op. -/
theorem aspect_lock_violated_after_pipeline :
    (rectangle_update_with_coord rectC2 "resize-e" 40 0 (some bounds100) 1 1 100 100).x2 -
        (rectangle_update_with_coord rectC2 "resize-e" 40 0 (some bounds100) 1 1 100 100).x1
        = 40 ∧
    (rectangle_update_with_coord rectC2 "resize-e" 40 0 (some bounds100) 1 1 100 100).y2 -
        (rectangle_update_with_coord rectC2 "resize-e" 40 0 (some bounds100) 1 1 100 100).y1
        = 100 ∧
    ¬|(40 : ℚ) / 100 - 1| < 1 / 1000 := by
  refine ⟨?_, ?_, by rw [not_lt, abs_of_nonpos (by norm_num)]; norm_num⟩ <;>
    norm_num +decide [rectangle_update_with_coord, rectangle_apply_coord,
      rectangle_handle_general_clamping, rectangle_apply_fixed_rule, rectangle_apply_aspect,
      rectangle_clamp, rectangle_clamp_width, rectangle_clamp_height, rectangle_keep_inside,
      rectangle_keep_inside_horizontally, rectangle_keep_inside_vertically,
      rectangle_update_int_rect, Clamp, mkRect, rectC2, bounds100,
      CLAMPED_NONE, CLAMPED_LEFT, CLAMPED_RIGHT, CLAMPED_TOP, CLAMPED_BOTTOM]

/-- C3: no inversion handling exists in the update pipeline.  Dragging the right edge of
`rectC3` to x = 10, left of x1 = 50, ends the update with x2 = 10 < x1 = 50 and the function
still `RESIZING_RIGHT`: the coordinates are not swapped and the function is not remapped. -/
theorem inversion_left_unresolved :
    (rectangle_update_with_coord rectC3 "resize-e" 10 25 (some bounds100) 1 1 100 100).x1
        = 50 ∧
    (rectangle_update_with_coord rectC3 "resize-e" 10 25 (some bounds100) 1 1 100 100).x2
        = 10 ∧
    (rectangle_update_with_coord rectC3 "resize-e" 10 25 (some bounds100) 1 1 100 100).function
        = ResizingFunction.RESIZING_RIGHT := by
  refine ⟨?_, ?_, ?_⟩ <;>
    norm_num +decide [rectangle_update_with_coord, rectangle_apply_coord,
      rectangle_handle_general_clamping, rectangle_apply_fixed_rule, rectangle_apply_aspect,
      rectangle_clamp, rectangle_clamp_width, rectangle_clamp_height, rectangle_keep_inside,
      rectangle_keep_inside_horizontally, rectangle_keep_inside_vertically,
      rectangle_update_int_rect, Clamp, mkRect, rectC3, bounds100,
      CLAMPED_NONE, CLAMPED_LEFT, CLAMPED_RIGHT, CLAMPED_TOP, CLAMPED_BOTTOM]

/-- C4: `rectangle_apply_aspect` is a no-op whenever the signed difference
`current_aspect - aspect` is below 1e-4 — in particular for every rectangle that is too
tall for the target aspect, where the claim requires it to modify the rectangle. -/
theorem apply_aspect_noop_when_too_tall (r : Rect) (aspect : ℚ) (clamped_sides : Nat)
    (h : (r.x2 - r.x1) / (r.y2 - r.y1) - aspect < 1 / 10000) :
    rectangle_apply_aspect r aspect clamped_sides = r := by
  unfold rectangle_apply_aspect
  dsimp only
  rw [if_pos h]

/-- Witness for C4: the rectangle `rectC4` (aspect 2/5, more than 1e-4 below the target 1)
is returned unchanged by the reconciler. -/
theorem apply_aspect_noop_when_too_tall_witness :
    rectangle_apply_aspect rectC4 1 CLAMPED_NONE = rectC4 ∧
    (rectC4.x2 - rectC4.x1) / (rectC4.y2 - rectC4.y1) = 2 / 5 :=
  ⟨apply_aspect_noop_when_too_tall rectC4 1 CLAMPED_NONE (by norm_num [rectC4, mkRect]),
   by norm_num [rectC4, mkRect]⟩

/-- C5: a MOVING update does not preserve width when clamped.  The source calls
`rectangle_handle_general_clamping` without its `dragType` argument, so a move is clamped by
the resizing clamp instead of the keep-inside translation: moving `rectC5` (width 50) to
coordinate (-10, 20) ends with width 40. -/
theorem moving_update_changes_width :
    rectC5.x2 - rectC5.x1 = 50 ∧
    (rectangle_update_with_coord rectC5 "move" (-10) 20 (some bounds100) 1 1 100 100).x2 -
        (rectangle_update_with_coord rectC5 "move" (-10) 20 (some bounds100) 1 1 100 100).x1
        = 40 := by
  constructor
  · norm_num [rectC5, mkRect]
  · norm_num +decide [rectangle_update_with_coord, rectangle_apply_coord,
      rectangle_handle_general_clamping, rectangle_apply_fixed_rule, rectangle_apply_aspect,
      rectangle_clamp, rectangle_clamp_width, rectangle_clamp_height, rectangle_keep_inside,
      rectangle_keep_inside_horizontally, rectangle_keep_inside_vertically,
      rectangle_update_int_rect, Clamp, mkRect, rectC5, bounds100,
      CLAMPED_NONE, CLAMPED_LEFT, CLAMPED_RIGHT, CLAMPED_TOP, CLAMPED_BOTTOM]

/-- C6: keep-inside snaps an oversized axis to exactly the container span, in both engines.
For the rectangle engine, a rectangle wider than the bounds gets x1 = min_x and x2 = max_x
with the vertical edges untouched; for the frame engine, a frame wider than the parent gets
Left = 0, Right = parent.Width - 1 and Width = parent.Width, with the vertical edges
untouched whenever the frame already fits vertically. -/
theorem keep_inside_oversized_snaps (r : Rect) (b : Bounds) (f p : FramePosition)
    (hr : b.max_x - b.min_x < r.x2 - r.x1)
    (hf : f.Right - f.Left > p.Width)
    (hH : ¬f.Height > p.Height) (hT : ¬f.Top < 0) (hB : ¬f.Bottom > p.Height - 1) :
    ((rectangle_keep_inside_horizontally r (some b)).x1 = b.min_x ∧
     (rectangle_keep_inside_horizontally r (some b)).x2 = b.max_x ∧
     (rectangle_keep_inside_horizontally r (some b)).y1 = r.y1 ∧
     (rectangle_keep_inside_horizontally r (some b)).y2 = r.y2) ∧
    ((KeepFrameInsideParent f p).Left = 0 ∧
     (KeepFrameInsideParent f p).Right = p.Width - 1 ∧
     (KeepFrameInsideParent f p).Width = p.Width ∧
     (KeepFrameInsideParent f p).Top = f.Top ∧
     (KeepFrameInsideParent f p).Bottom = f.Bottom ∧
     (KeepFrameInsideParent f p).Height = f.Height) := by
  constructor
  · simp only [rectangle_keep_inside_horizontally]
    rw [if_pos hr]
    exact ⟨rfl, rfl, rfl, rfl⟩
  · simp only [KeepFrameInsideParent, hf, hH, hT, hB, if_true, if_false, ite_true, ite_false]
    refine ⟨?_, ?_, ?_, ?_, ?_, ?_⟩ <;> first | trivial | ring

/-- Witness for C6 at concrete inputs: `rectC6` (width 220) against `bounds100` and
`frameC6` (width 260) against the 100 by 100 `parentC6`. -/
theorem keep_inside_oversized_snaps_witness :
    ((rectangle_keep_inside_horizontally rectC6 (some bounds100)).x1 = bounds100.min_x ∧
     (rectangle_keep_inside_horizontally rectC6 (some bounds100)).x2 = bounds100.max_x ∧
     (rectangle_keep_inside_horizontally rectC6 (some bounds100)).y1 = rectC6.y1 ∧
     (rectangle_keep_inside_horizontally rectC6 (some bounds100)).y2 = rectC6.y2) ∧
    ((KeepFrameInsideParent frameC6 parentC6).Left = 0 ∧
     (KeepFrameInsideParent frameC6 parentC6).Right = parentC6.Width - 1 ∧
     (KeepFrameInsideParent frameC6 parentC6).Width = parentC6.Width ∧
     (KeepFrameInsideParent frameC6 parentC6).Top = frameC6.Top ∧
     (KeepFrameInsideParent frameC6 parentC6).Bottom = frameC6.Bottom ∧
     (KeepFrameInsideParent frameC6 parentC6).Height = frameC6.Height) :=
  keep_inside_oversized_snaps rectC6 bounds100 frameC6 parentC6
    (by norm_num [rectC6, mkRect, bounds100])
    (by norm_num [frameC6, parentC6])
    (by norm_num [frameC6, parentC6])
    (by norm_num [frameC6])
    (by norm_num [frameC6, parentC6])

/-- C7: the constructor's aspect configuration.  For every string: if the anchored
`<number>:<number>` regex does not match, or a parsed component has absolute value at most
1e-4, aspect locking is disabled with both components reset to zero; if it matches with both
components above 1e-4, locking is enabled with the parsed components. -/
theorem aspect_config_parsing (s : String) :
    (aspectStringParse s.data = none → dragDirectiveAspectInit s = (false, 0, 0)) ∧
    (∀ ax ay, aspectStringParse s.data = some (ax, ay) →
      (|ax| ≤ 1 / 10000 ∨ |ay| ≤ 1 / 10000) → dragDirectiveAspectInit s = (false, 0, 0)) ∧
    (∀ ax ay, aspectStringParse s.data = some (ax, ay) →
      1 / 10000 < |ax| → 1 / 10000 < |ay| → dragDirectiveAspectInit s = (true, ax, ay)) := by
  by_cases hs : s = ""
  · subst hs
    have hnone : aspectStringParse ("" : String).data = none := rfl
    refine ⟨fun _ => rfl, fun ax ay h _ => ?_, fun ax ay h _ _ => ?_⟩ <;>
      · rw [hnone] at h
        exact Option.noConfusion h
  · unfold dragDirectiveAspectInit
    rw [if_neg hs]
    refine ⟨fun hn => by rw [hn], fun ax ay h hz => ?_, fun ax ay h hx hy => ?_⟩
    · rw [h]
      exact if_pos hz
    · rw [h]
      exact if_neg (by push_neg; exact ⟨hx, hy⟩)

/-- Witness for C7: the zero-component string "1:0" disables locking, and "3:2" enables it
with components 3 and 2. -/
theorem aspect_config_parsing_witness :
    dragDirectiveAspectInit "1:0" = (false, 0, 0) ∧
    dragDirectiveAspectInit "3:2" = (true, 3, 2) := by
  have h10 : aspectStringParse ("1:0" : String).data = some (1, 0) := by
    norm_num +decide [aspectStringParse, parseDecimal, digitsToNat, fracToRat,
      show Char.isDigit '1' = true by decide, show Char.isDigit '0' = true by decide,
      show Char.isDigit ':' = false by decide,
      show ('1'.toNat - '0'.toNat : ℕ) = 1 by decide,
      show ('0'.toNat - '0'.toNat : ℕ) = 0 by decide]
  have h32 : aspectStringParse ("3:2" : String).data = some (3, 2) := by
    norm_num +decide [aspectStringParse, parseDecimal, digitsToNat, fracToRat,
      show Char.isDigit '3' = true by decide, show Char.isDigit '2' = true by decide,
      show Char.isDigit ':' = false by decide,
      show ('3'.toNat - '0'.toNat : ℕ) = 3 by decide,
      show ('2'.toNat - '0'.toNat : ℕ) = 2 by decide]
  exact ⟨(aspect_config_parsing "1:0").2.1 1 0 h10 (Or.inr (by norm_num)),
    (aspect_config_parsing "3:2").2.2 3 2 h32 (by norm_num) (by norm_num)⟩

/-- C8: the per-pointer-move pipeline is not idempotent.  Moving `rectC8` (width 50) with
coordinate (-15, 30) gives width 35 (x2 = 35); feeding the identical coordinate again gives
width 20 (x2 = 20), so the second application changes the rectangle further. -/
theorem second_identical_coord_changes_rectangle :
    rectC8_once.x2 = 35 ∧ rectC8_twice.x2 = 20 ∧ rectC8_twice ≠ rectC8_once := by
  have h1 : rectC8_once.x2 = 35 := by
    norm_num +decide [rectC8_once, rectC8, rectangle_update_with_coord, rectangle_apply_coord,
      rectangle_handle_general_clamping, rectangle_apply_fixed_rule, rectangle_apply_aspect,
      rectangle_clamp, rectangle_clamp_width, rectangle_clamp_height, rectangle_keep_inside,
      rectangle_keep_inside_horizontally, rectangle_keep_inside_vertically,
      rectangle_update_int_rect, Clamp, mkRect, bounds100,
      CLAMPED_NONE, CLAMPED_LEFT, CLAMPED_RIGHT, CLAMPED_TOP, CLAMPED_BOTTOM]
  have h2 : rectC8_twice.x2 = 20 := by
    norm_num +decide [rectC8_twice, rectC8_once, rectC8, rectangle_update_with_coord,
      rectangle_apply_coord,
      rectangle_handle_general_clamping, rectangle_apply_fixed_rule, rectangle_apply_aspect,
      rectangle_clamp, rectangle_clamp_width, rectangle_clamp_height, rectangle_keep_inside,
      rectangle_keep_inside_horizontally, rectangle_keep_inside_vertically,
      rectangle_update_int_rect, Clamp, mkRect, bounds100,
      CLAMPED_NONE, CLAMPED_LEFT, CLAMPED_RIGHT, CLAMPED_TOP, CLAMPED_BOTTOM]
  refine ⟨h1, h2, fun h => ?_⟩
  rw [h, h1] at h2
  norm_num at h2

/-- C9 counterexample: Scenario A with the directive's default minimum sizes (50, 100) does
not leave the top edge unchanged: `x2` becomes 160 but `Top` becomes -40 instead of staying
at `frameC9.Top = 10`, because the height 50 is below the default minimum height 100. -/
theorem scenarioA_top_edge_moves :
    (HandleDragMove2 frameC9 parentC9 50 0 "resize-e" false 0 0 50 100).Right = 160 ∧
    (HandleDragMove2 frameC9 parentC9 50 0 "resize-e" false 0 0 50 100).Top = -40 ∧
    frameC9.Top = 10 := by
  refine ⟨?_, ?_, rfl⟩ <;>
    norm_num +decide [HandleDragMove2, MaintainAspect, ClampToParent, KeepFrameInsideParent,
      floorQ, frameC9, parentC9, CLAMP_TOP, CLAMP_RIGHT, CLAMP_BOTTOM, CLAMP_LEFT]

/-- C9 amended: Scenario A under the default configuration (minimum width 50, minimum height
100, no aspect lock).  Dragging resize-e by dx = +50 produces x2 = 160 and width 150 with x1
and y2 unchanged, but the minimum-height floor engages: y1 becomes -40 and the height 100. -/
theorem scenarioA_with_default_min_height :
    HandleDragMove2 frameC9 parentC9 50 0 "resize-e" false 0 0 50 100 =
      { Top := -40, Left := 10, Right := 160, Bottom := 60, CenterX := 85, CenterY := 10,
        Width := 150, Height := 100 } := by
  norm_num +decide [HandleDragMove2, MaintainAspect, ClampToParent, KeepFrameInsideParent,
    floorQ, frameC9, parentC9, CLAMP_TOP, CLAMP_RIGHT, CLAMP_BOTTOM, CLAMP_LEFT]

/-- The width clamp leaves an empty mask empty: the `CLAMPED_LEFT` and `CLAMPED_RIGHT` bits
are OR'd only behind the `if (clamped_sides)` truthiness guard. -/
theorem rectangle_clamp_width_mask_empty (r : Rect) (c : Option Bounds) (sym : Bool) :
    (rectangle_clamp_width r CLAMPED_NONE c sym).2 = CLAMPED_NONE := by
  unfold rectangle_clamp_width CLAMPED_NONE
  cases c with
  | none => rfl
  | some b => dsimp only; split <;> split <;> simp [apply_ite Prod.snd]

/-- The height clamp leaves an empty mask empty, like the width clamp. -/
theorem rectangle_clamp_height_mask_empty (r : Rect) (c : Option Bounds) (sym : Bool) :
    (rectangle_clamp_height r CLAMPED_NONE c sym).2 = CLAMPED_NONE := by
  unfold rectangle_clamp_height CLAMPED_NONE
  cases c with
  | none => rfl
  | some b => dsimp only; split <;> split <;> simp [apply_ite Prod.snd]

/-- `rectangle_clamp` on an empty mask returns the empty mask, for every input. -/
theorem rectangle_clamp_mask_empty (r : Rect) (c : Option Bounds) (sym : Bool) :
    (rectangle_clamp r CLAMPED_NONE c sym).2 = CLAMPED_NONE := by
  unfold rectangle_clamp
  dsimp only
  rw [rectangle_clamp_width_mask_empty]
  exact rectangle_clamp_height_mask_empty _ c sym

/-- C10: `rectangle_clamp` called with the empty mask `CLAMPED_NONE` returns `CLAMPED_NONE`
for every rectangle, constraint and symmetrically flag — even when an edge was pinned —
because the clamp helpers OR bits only when the incoming mask is already non-zero.
Consequently the second `rectangle_apply_aspect` pass inside `rectangle_apply_fixed_rule`
always executes with an empty clamped-sides mask. -/
theorem clamp_mask_stays_empty (r : Rect) (constraint : Option Bounds) (symmetrically : Bool)
    (dragType : String) (an ad pw ph : ℚ) :
    (rectangle_clamp r CLAMPED_NONE constraint symmetrically).2 = CLAMPED_NONE ∧
    (dragType ≠ "move" →
      rectangle_apply_fixed_rule r dragType constraint an ad pw ph =
        rectangle_apply_aspect
          (rectangle_clamp
            (rectangle_apply_aspect r (Clamp (an / ad) (1 / ph) pw) CLAMPED_NONE)
            CLAMPED_NONE constraint false).1
          (Clamp (an / ad) (1 / ph) pw) CLAMPED_NONE) := by
  refine ⟨rectangle_clamp_mask_empty r constraint symmetrically, fun hdt => ?_⟩
  unfold rectangle_apply_fixed_rule
  dsimp only
  rw [if_pos hdt, rectangle_clamp_mask_empty]

/-- Witness for C10 at a rectangle that the clamp really pins on both horizontal sides. -/
theorem clamp_mask_stays_empty_witness :
    (rectangle_clamp rectC10 CLAMPED_NONE (some bounds100) false).2 = CLAMPED_NONE ∧
    rectangle_apply_fixed_rule rectC10 "resize-e" (some bounds100) 1 1 100 100 =
      rectangle_apply_aspect
        (rectangle_clamp
          (rectangle_apply_aspect rectC10 (Clamp (1 / 1) (1 / 100) 100) CLAMPED_NONE)
          CLAMPED_NONE (some bounds100) false).1
        (Clamp (1 / 1) (1 / 100) 100) CLAMPED_NONE :=
  ⟨(clamp_mask_stays_empty rectC10 (some bounds100) false "resize-e" 1 1 100 100).1,
   (clamp_mask_stays_empty rectC10 (some bounds100) false "resize-e" 1 1 100 100).2
     (by decide)⟩
